import Mathlib

/-!
Shallow embedding of the due-maintenance evaluator, date handling, alert
production, maintenance recording and coach-form validation of
`railway_streamlit_full.py`, together with a model of the risk scorer
described by the specification (whose code is not present under `src/`).

Dates are modelled as proleptic-Gregorian calendar dates; a Python
`datetime` value is a date plus a seconds-within-day component.  The
`strptime` calls of the source are modelled per format string, including
CPython's field-range checks and the constructor's calendar validation.
-/

/-- A calendar date (proleptic Gregorian), as produced by Python `datetime`. -/
structure PyDate where
  year : Nat
  month : Nat
  day : Nat
deriving DecidableEq, Repr

/-- A Python `datetime`: a date plus seconds elapsed within the day
(`strptime` with a date-only format yields midnight, i.e. `secs = 0`). -/
structure PyDateTime where
  date : PyDate
  secs : Nat
deriving DecidableEq, Repr

/-- Gregorian leap-year rule, as used by Python's `datetime`. -/
def isLeapYear (y : Nat) : Bool :=
  (y % 4 == 0 && y % 100 != 0) || y % 400 == 0

/-- Days in a month of a given year (Python `calendar`/`datetime` rule). -/
def daysInMonth (y m : Nat) : Nat :=
  if m = 2 then (if isLeapYear y then 29 else 28)
  else if m = 4 ∨ m = 6 ∨ m = 9 ∨ m = 11 then 30
  else 31

/-- Calendar validity as enforced by the `datetime` constructor:
`MINYEAR = 1`, `MAXYEAR = 9999`, month in 1..12, day in 1..days-of-month. -/
def isValidPyDate (y m d : Nat) : Bool :=
  1 ≤ y && y ≤ 9999 && 1 ≤ m && m ≤ 12 && 1 ≤ d && d ≤ daysInMonth y m

/-- Days contributed by the months strictly before month `m` of year `y`. -/
def daysBeforeMonth (y m : Nat) : Nat :=
  (List.range (m - 1)).foldl (fun acc i => acc + daysInMonth y (i + 1)) 0

/-- Day ordinal of a date (day 1 = 0001-01-01), matching Python's
`date.toordinal`.  The subtraction of the century-leap correction is done
last so the `Nat` expression agrees with the integer formula for `y ≥ 1`. -/
def dateOrdinal (d : PyDate) : Nat :=
  365 * (d.year - 1) + (d.year - 1) / 4 + (d.year - 1) / 400
    + daysBeforeMonth d.year d.month + d.day - (d.year - 1) / 100

/-- Absolute timestamp in seconds of a `datetime` value. -/
def absSeconds (t : PyDateTime) : Int :=
  (dateOrdinal t.date : Int) * 86400 + (t.secs : Int)

/-- `(a - b).days` for Python datetimes `a`, `b`: `timedelta` normalises with
floor division, so the day count is the floor of the second difference. -/
def timedeltaDays (a b : PyDateTime) : Int :=
  (absSeconds a - absSeconds b).fdiv 86400

/-- Split a character list on a separator character; the concatenation of the
pieces interleaved with the separator reproduces the input. -/
def splitOnChar (sep : Char) : List Char → List (List Char)
  | [] => [[]]
  | c :: cs =>
    let r := splitOnChar sep cs
    if c = sep then [] :: r
    else
      match r with
      | [] => [[c]]
      | h :: t => (c :: h) :: t

/-- ASCII decimal digit test. -/
def isAsciiDigit (c : Char) : Bool := 48 ≤ c.toNat && c.toNat ≤ 57

/-- All characters are ASCII decimal digits. -/
def allDigitChars (cs : List Char) : Bool :=
  cs.all isAsciiDigit

/-- Numeric value of a digit string (most significant first). -/
def digitsToNat (cs : List Char) : Nat :=
  cs.foldl (fun a c => a * 10 + (c.toNat - 48)) 0

/-- CPython `strptime` `%d` field: one or two digits with value 1..31. -/
def parseDayField (cs : List Char) : Option Nat :=
  if (cs.length = 1 ∨ cs.length = 2) ∧ allDigitChars cs = true
      ∧ 1 ≤ digitsToNat cs ∧ digitsToNat cs ≤ 31 then
    some (digitsToNat cs)
  else none

/-- CPython `strptime` `%m` field: one or two digits with value 1..12. -/
def parseMonthField (cs : List Char) : Option Nat :=
  if (cs.length = 1 ∨ cs.length = 2) ∧ allDigitChars cs = true
      ∧ 1 ≤ digitsToNat cs ∧ digitsToNat cs ≤ 12 then
    some (digitsToNat cs)
  else none

/-- CPython `strptime` `%Y` field: exactly four digits. -/
def parseYear4Field (cs : List Char) : Option Nat :=
  if cs.length = 4 ∧ allDigitChars cs = true then some (digitsToNat cs)
  else none

/-- CPython `strptime` `%y` field: exactly two digits; 00..68 maps to
2000..2068 and 69..99 to 1969..1999. -/
def parseYear2Field (cs : List Char) : Option Nat :=
  if cs.length = 2 ∧ allDigitChars cs = true then
    some (if digitsToNat cs ≤ 68 then 2000 + digitsToNat cs
          else 1900 + digitsToNat cs)
  else none

/-- Build a midnight `datetime` after the constructor's calendar check. -/
def mkPyDateTime (y m d : Nat) : Option PyDateTime :=
  if isValidPyDate y m d then some ⟨⟨y, m, d⟩, 0⟩ else none

/-- The four format strings tried by `parse_date_safely`, in order:
`"%d-%m-%Y"`, `"%d-%m-%y"`, `"%Y-%m-%d"`, `"%d.%m.%Y"`. -/
inductive PyFormat where
  | dmY4 : PyFormat
  | dmy2 : PyFormat
  | Ymd : PyFormat
  | dmY4dot : PyFormat
deriving DecidableEq, Repr

/-- `datetime.strptime(s, fmt)` for the four formats of the source, as an
option (`none` models the `ValueError` the source catches).  Each format is
digits separated by a literal, matched against the whole string, with the
field ranges of CPython's `_strptime` regex and the constructor's calendar
validation. -/
def strptime (fmt : PyFormat) (s : String) : Option PyDateTime :=
  match fmt with
  | .dmY4 =>
    match splitOnChar '-' s.data with
    | [p1, p2, p3] =>
      match parseDayField p1, parseMonthField p2, parseYear4Field p3 with
      | some d, some m, some y => mkPyDateTime y m d
      | _, _, _ => none
    | _ => none
  | .dmy2 =>
    match splitOnChar '-' s.data with
    | [p1, p2, p3] =>
      match parseDayField p1, parseMonthField p2, parseYear2Field p3 with
      | some d, some m, some y => mkPyDateTime y m d
      | _, _, _ => none
    | _ => none
  | .Ymd =>
    match splitOnChar '-' s.data with
    | [p1, p2, p3] =>
      match parseYear4Field p1, parseMonthField p2, parseDayField p3 with
      | some y, some m, some d => mkPyDateTime y m d
      | _, _, _ => none
    | _ => none
  | .dmY4dot =>
    match splitOnChar '.' s.data with
    | [p1, p2, p3] =>
      match parseDayField p1, parseMonthField p2, parseYear4Field p3 with
      | some d, some m, some y => mkPyDateTime y m d
      | _, _, _ => none
    | _ => none

/-- Exactly two digits, any value (used for zero-padded ISO fields). -/
def parseTwoDigitField (cs : List Char) : Option Nat :=
  if cs.length = 2 ∧ allDigitChars cs = true then some (digitsToNat cs)
  else none

/-- Optional ISO time suffix after the 10-character date: empty means
midnight; otherwise a `'T'` or `' '` separator followed by `HH:MM` or
`HH:MM:SS`.  This models the time forms of CPython's
`datetime.fromisoformat` without fractional seconds or offsets, which the
application never produces. -/
def parseIsoTimeSuffix : List Char → Option Nat
  | [] => some 0
  | sep :: rest =>
    if sep = 'T' ∨ sep = ' ' then
      match splitOnChar ':' rest with
      | [h, m] =>
        match parseTwoDigitField h, parseTwoDigitField m with
        | some hv, some mv =>
          if hv ≤ 23 ∧ mv ≤ 59 then some (hv * 3600 + mv * 60) else none
        | _, _ => none
      | [h, m, sec] =>
        match parseTwoDigitField h, parseTwoDigitField m, parseTwoDigitField sec with
        | some hv, some mv, some sv =>
          if hv ≤ 23 ∧ mv ≤ 59 ∧ sv ≤ 59 then
            some (hv * 3600 + mv * 60 + sv)
          else none
        | _, _, _ => none
      | _ => none
    else none

/-- `datetime.fromisoformat` model: a `YYYY-MM-DD` date, optionally followed
by a time suffix. -/
def fromisoformatOpt (s : String) : Option PyDateTime :=
  let cs := s.data
  match cs.take 10 with
  | [y1, y2, y3, y4, h1, m1, m2, h2, d1, d2] =>
    if h1 = '-' ∧ h2 = '-' ∧ allDigitChars [y1, y2, y3, y4] = true
        ∧ allDigitChars [m1, m2] = true ∧ allDigitChars [d1, d2] = true then
      let y := digitsToNat [y1, y2, y3, y4]
      let m := digitsToNat [m1, m2]
      let d := digitsToNat [d1, d2]
      if isValidPyDate y m d then
        match parseIsoTimeSuffix (cs.drop 10) with
        | some secs => some ⟨⟨y, m, d⟩, secs⟩
        | none => none
      else none
    else none
  | _ => none

/-- The ordered format list of `parse_date_safely`. -/
def pyFormats : List PyFormat := [.dmY4, .dmy2, .Ymd, .dmY4dot]

/-- `parse_date_safely` of `railway_streamlit_full.py`: empty/absent input
yields `None`; otherwise the four formats are tried in order and the first
success returned; otherwise the ISO fallback; otherwise `None`. -/
def parse_date_safely (s : String) : Option PyDateTime :=
  if s = "" then none
  else
    match pyFormats.findSome? (fun fmt => strptime fmt s) with
    | some dt => some dt
    | none => fromisoformatOpt s

/-- The ASCII digit character for `n` (only used with `n < 10`). -/
def digitChar (n : Nat) : Char := Char.ofNat (48 + n)

/-- `strftime` two-digit zero-padded field (`%d`, `%m`). -/
def twoDigitString (n : Nat) : String :=
  String.mk [digitChar (n / 10 % 10), digitChar (n % 10)]

/-- `strftime` four-digit zero-padded field (`%Y`). -/
def fourDigitString (n : Nat) : String :=
  String.mk [digitChar (n / 1000 % 10), digitChar (n / 100 % 10),
    digitChar (n / 10 % 10), digitChar (n % 10)]

/-- `dt.strftime("%d-%m-%Y")`: the canonical zero-padded display form. -/
def strftimeDMY (d : PyDate) : String :=
  twoDigitString d.day ++ "-" ++ twoDigitString d.month ++ "-" ++ fourDigitString d.year

/-- `format_date_for_display` of the source, on the string-or-`None` values
the application feeds it: `None` and `""` give `""`; a string that parses
is reformatted with `strftime("%d-%m-%Y")`; an unparsable string is
returned unchanged. -/
def format_date_for_display (dt : Option String) : String :=
  match dt with
  | none => ""
  | some s =>
    if s = "" then ""
    else
      match parse_date_safely s with
      | some p => strftimeDMY p.date
      | none => s

/-! ### Coach records and the maintenance status evaluator -/

/-- Threshold constant `KM_LIMIT` of the source. -/
def KM_LIMIT : Int := 5000

/-- Threshold constant `DAYS_LIMIT` of the source. -/
def DAYS_LIMIT : Int := 180

/-- Threshold constant `DAYS_SOON` of the source. -/
def DAYS_SOON : Int := 150

/-- A row of the `coaches` table.  `type`, `last_maintenance` and `km_run`
are nullable columns; `status` is always one of the form's choices and is
never written as NULL by the application. -/
structure CoachRow where
  coach_id : String
  type : Option String
  last_maintenance : Option String
  km_run : Option Int
  status : String
deriving DecidableEq, Repr

/-- `row["km_run"] or 0`: Python `or` yields 0 both for a NULL distance and
for a stored 0, so the value is the stored integer with NULL read as 0. -/
def pyOrZero : Option Int → Int
  | none => 0
  | some k => k

/-- The `days_passed` computation shared by the evaluator and the alert
scan: `None` unless the stored date is present, non-empty (Python
truthiness of `if last:`) and parses, in which case it is
`(datetime.now() - dt).days`. -/
def daysPassedOf (now : PyDateTime) (last : Option String) : Option Int :=
  match last with
  | none => none
  | some s =>
    if s = "" then none
    else
      match parse_date_safely s with
      | none => none
      | some dt => some (timedeltaDays now dt)

/-- `days_passed is not None and days_passed >= t`. -/
def daysAtLeast (days : Option Int) (t : Int) : Bool :=
  match days with
  | none => false
  | some d => t ≤ d

/-- `coach_due_status` of the source, evaluated against the instant `now`. -/
def coach_due_status (now : PyDateTime) (row : CoachRow) : String :=
  let km := pyOrZero row.km_run
  let days := daysPassedOf now row.last_maintenance
  if KM_LIMIT ≤ km || daysAtLeast days DAYS_LIMIT then "Overdue"
  else if KM_LIMIT - 500 ≤ km || daysAtLeast days DAYS_SOON then "Due Soon"
  else "OK"

/-- An entry of the fleet alert list built by `get_due_maintenance`. -/
structure AlertEntry where
  coach_id : String
  type : Option String
  last_maintenance : Option String
  km_run : Int
  days_passed : Option Int
deriving DecidableEq, Repr

/-- Byte-order (code-point) comparison of strings, the `BINARY` collation
SQLite applies to `ORDER BY coach_id` on a TEXT column. -/
def charListLe : List Char → List Char → Bool
  | [], _ => true
  | _ :: _, [] => false
  | a :: as, b :: bs =>
    if a.toNat < b.toNat then true
    else if b.toNat < a.toNat then false
    else charListLe as bs

/-- The row order produced by `ORDER BY coach_id`. -/
def coachRowLe (a b : CoachRow) : Prop :=
  charListLe a.coach_id.data b.coach_id.data = true

instance : DecidableRel coachRowLe :=
  fun a b => inferInstanceAs (Decidable (charListLe a.coach_id.data b.coach_id.data = true))

/-- `SELECT coach_id, type, last_maintenance, km_run, status FROM coaches
WHERE status!='Removed' ORDER BY coach_id` over a list model of the table. -/
def selectNotRemovedSorted (db : List CoachRow) : List CoachRow :=
  List.insertionSort coachRowLe (db.filter (fun r => r.status != "Removed"))

/-- Body of the alert-scan loop: recompute `km` and `days_passed` for a row
and emit an alert entry when the overdue condition holds. -/
def alertOfRow (now : PyDateTime) (r : CoachRow) : Option AlertEntry :=
  let km := pyOrZero r.km_run
  let days := daysPassedOf now r.last_maintenance
  if KM_LIMIT ≤ km || daysAtLeast days DAYS_LIMIT then
    some ⟨r.coach_id, r.type, r.last_maintenance, km, days⟩
  else none

/-- `get_due_maintenance` of the source: scan the ordered, non-`Removed`
rows and collect the alert entries. -/
def get_due_maintenance (now : PyDateTime) (db : List CoachRow) : List AlertEntry :=
  (selectNotRemovedSorted db).filterMap (alertOfRow now)

/-- The alert entry the scan would build for a row (its fields taken raw
from the row, with the distance NULL-defaulted and days nullable). -/
def mkAlertEntry (now : PyDateTime) (r : CoachRow) : AlertEntry :=
  ⟨r.coach_id, r.type, r.last_maintenance, pyOrZero r.km_run,
    daysPassedOf now r.last_maintenance⟩

/-! ### Maintenance recording (the save action of `page_record_maintenance`) -/

/-- A row of the `maintenance_records` table (sans the auto-increment id). -/
structure MaintenanceRecord where
  coach_id : String
  train_no : Option String
  date : String
  maintenance_type : String
  engineer : String
  notes : Option String
deriving DecidableEq, Repr

/-- The two tables the save action touches. -/
structure DbState where
  coaches : List CoachRow
  records : List MaintenanceRecord
deriving DecidableEq, Repr

/-- Python `str.strip()` on the character list. -/
def pyStripChars (cs : List Char) : List Char :=
  ((cs.dropWhile Char.isWhitespace).reverse.dropWhile Char.isWhitespace).reverse

/-- Python `str.strip()`. -/
def pyStrip (s : String) : String := String.mk (pyStripChars s.data)

/-- `x or None` for a stripped string: empty becomes NULL. -/
def noneIfBlank (s : String) : Option String :=
  if s = "" then none else some s

/-- The record inserted by the save action. -/
def mkMaintenanceRecord (coach_sel : String) (train_no : Option String)
    (date_val mtype engineer notes : String) : MaintenanceRecord :=
  ⟨coach_sel, train_no, pyStrip date_val, pyStrip mtype, engineer,
    noneIfBlank (pyStrip notes)⟩

/-- The "Save Maintenance" action of `page_record_maintenance`: with no
coach selected it only shows an error; otherwise it inserts the record and
runs `UPDATE coaches SET last_maintenance=? WHERE coach_id=?`, which
overwrites the stored date of every row with the selected id,
unconditionally. -/
def page_record_maintenance_save (st : DbState) (coach_sel : String)
    (train_no : Option String) (date_val mtype engineer notes : String) : DbState :=
  if coach_sel = "" then st
  else
    { coaches := st.coaches.map (fun c =>
        if c.coach_id = coach_sel then
          { c with last_maintenance := some (pyStrip date_val) }
        else c),
      records := st.records
        ++ [mkMaintenanceRecord coach_sel train_no date_val mtype engineer notes] }

/-! ### Coach create/edit form validation (`page_coaches`) -/

/-- CPython `int(s)` on the form's text input, as an option (`none` models
the `ValueError` the form catches): surrounding whitespace is ignored, an
optional sign precedes one or more digits.  Negative values parse. -/
def pyIntParse (s : String) : Option Int :=
  match pyStripChars s.data with
  | [] => none
  | c :: cs =>
    if c = '-' then
      if cs ≠ [] ∧ allDigitChars cs = true then some (-(digitsToNat cs : Int))
      else none
    else if c = '+' then
      if cs ≠ [] ∧ allDigitChars cs = true then some (digitsToNat cs : Int)
      else none
    else if allDigitChars (c :: cs) = true then some (digitsToNat (c :: cs) : Int)
    else none

/-- `int(km_run) if km_run else 0` guarded by the form's `try`/`except`:
a blank field stores 0; otherwise the field must parse as an integer. -/
def parseKmField (s : String) : Option Int :=
  if s = "" then some 0 else pyIntParse s

/-- The "Save Coach" action of the add-coach form: requires a non-blank
coach id and an integer `KM Run` field; stores the stripped id, the
stripped type and date with blank as NULL, the parsed distance and the
selected status. -/
def addCoachForm (coach_id ctype last km_run status : String) : Option CoachRow :=
  if pyStrip coach_id = "" then none
  else
    match parseKmField km_run with
    | none => none
    | some kmv =>
      some ⟨pyStrip coach_id, noneIfBlank (pyStrip ctype),
        noneIfBlank (pyStrip last), some kmv, status⟩

/-- The "Save changes" action of the edit-coach form: the same `KM Run`
validation, updating type, date, distance and status of the selected row. -/
def editCoachForm (orig : CoachRow) (type_new km_new last_new status_new : String) :
    Option CoachRow :=
  match parseKmField km_new with
  | none => none
  | some kmv =>
    some ⟨orig.coach_id, noneIfBlank (pyStrip type_new),
      noneIfBlank (pyStrip last_new), some kmv, status_new⟩

/-! ### Risk scorer (spec-modelled: its application code is not under `src/`;
only the classifier training script `train_rf_model.py` is). -/

/-- Round a rational to 2 decimal places. -/
def round2 (q : ℚ) : ℚ := ((round (q * 100) : ℤ) : ℚ) / 100

/-- Round a rational to 1 decimal place. -/
def round1 (q : ℚ) : ℚ := ((round (q * 10) : ℤ) : ℚ) / 10

/-- Modelled from the spec: the Risk Scorer's derived vibration estimate
`min(0.1 + km / 250000, 1.0)` rounded to 2 decimal places (the scorer's
application code is missing from `src/`; real arithmetic is modelled with
rationals). -/
def vibration_level (km : ℚ) : ℚ := round2 (min (1 / 10 + km / 250000) 1)

/-- Modelled from the spec: the Risk Scorer's derived brake-health estimate
`max(100 - km / 2500, 20)` rounded to 1 decimal place. -/
def brake_health (km : ℚ) : ℚ := round1 (max (100 - km / 2500) 20)

/-- Modelled from the spec: the distance component
`km_score = min(km / 33000 * 40, 40)` of the continuous risk score. -/
def km_score (km : ℚ) : ℚ := min (km / 33000 * 40) 40

/-- Modelled from the spec: the vibration component
`vibration_score = vibration_level * 30`. -/
def vibration_score (km : ℚ) : ℚ := vibration_level km * 30

/-- Modelled from the spec: the brake component
`brake_score = (100 - brake_health) * 0.3`. -/
def brake_score (km : ℚ) : ℚ := (100 - brake_health km) * (3 / 10)

/-- Modelled from the spec: the continuous score
`floor(min(km_score + vibration_score + brake_score, 100))`
clamped to `[0, 100]`. -/
def risk_score (km : ℚ) : ℤ :=
  max 0 (min (Int.floor (min (km_score km + vibration_score km + brake_score km) 100)) 100)

/-! ### Specification-side predicates (the claims' wording) -/

/-- The claim's Overdue condition: `km ≥ 5000` OR days known and `≥ 180`. -/
def specOverdue (km : Int) (days : Option Int) : Prop :=
  5000 ≤ km ∨ ∃ d, days = some d ∧ 180 ≤ d

/-- The claim's Due-Soon condition: `km ≥ 4500` OR days known and `≥ 150`. -/
def specDueSoon (km : Int) (days : Option Int) : Prop :=
  4500 ≤ km ∨ ∃ d, days = some d ∧ 150 ≤ d

/-! ### Helper lemmas -/

theorem daysAtLeast_eq_true_iff (days : Option Int) (t : Int) :
    daysAtLeast days t = true ↔ ∃ d, days = some d ∧ t ≤ d := by
  cases days <;> simp [daysAtLeast]

/-- C10: the per-coach classification function never reads the status
field: two records agreeing on `km_run` and `last_maintenance` receive the
same urgency label at any instant, whatever their statuses. -/
theorem coach_due_status_ignores_status (now : PyDateTime) (r1 r2 : CoachRow)
    (hkm : r1.km_run = r2.km_run) (hlm : r1.last_maintenance = r2.last_maintenance) :
    coach_due_status now r1 = coach_due_status now r2 := by
  simp only [coach_due_status, hkm, hlm]

theorem coach_due_status_ignores_status_witness :
    (CoachRow.mk "C1" none (some "01-01-2024") (some 0) "Active").km_run
        = (CoachRow.mk "C1" none (some "01-01-2024") (some 0) "Removed").km_run
    ∧ (CoachRow.mk "C1" none (some "01-01-2024") (some 0) "Active").last_maintenance
        = (CoachRow.mk "C1" none (some "01-01-2024") (some 0) "Removed").last_maintenance
    ∧ coach_due_status ⟨⟨2024, 6, 29⟩, 0⟩ (CoachRow.mk "C1" none (some "01-01-2024") (some 0) "Active")
        = coach_due_status ⟨⟨2024, 6, 29⟩, 0⟩ (CoachRow.mk "C1" none (some "01-01-2024") (some 0) "Removed") :=
  ⟨rfl, rfl,
    coach_due_status_ignores_status ⟨⟨2024, 6, 29⟩, 0⟩ _ _ rfl rfl⟩

/-- C5: the risk scorer's derived features follow the spec formulas, and at
`km = 0` they evaluate to `0.1` and `100.0`. -/
theorem risk_features_spec :
    (∀ km : ℚ,
        vibration_level km = round2 (min (1 / 10 + km / 250000) 1)
      ∧ brake_health km = round1 (max (100 - km / 2500) 20))
    ∧ vibration_level 0 = 1 / 10
    ∧ brake_health 0 = 100 := by
  refine ⟨fun km => ⟨rfl, rfl⟩, ?_, ?_⟩
  · norm_num [vibration_level, round2]
  · norm_num [brake_health, round1]

/-- C6: the continuous risk score follows the spec formulas, is clamped to
`[0, 100]`, and the distance component saturates: it is exactly 40 at
`km = 33000` and still 40 (not 80) at `km = 66000`. -/
theorem risk_score_spec :
    (∀ km : ℚ,
        km_score km = min (km / 33000 * 40) 40
      ∧ vibration_score km = vibration_level km * 30
      ∧ brake_score km = (100 - brake_health km) * (3 / 10)
      ∧ risk_score km
          = max 0 (min (Int.floor
              (min (km_score km + vibration_score km + brake_score km) 100)) 100)
      ∧ 0 ≤ risk_score km ∧ risk_score km ≤ 100)
    ∧ km_score 33000 = 40
    ∧ km_score 66000 = 40 := by
  refine ⟨fun km => ⟨rfl, rfl, rfl, rfl, le_max_left _ _, ?_⟩, ?_, ?_⟩
  · exact max_le (by norm_num) (min_le_right _ _)
  · norm_num [km_score]
  · norm_num [km_score]

/-- C7: the save action of `page_record_maintenance` appends exactly one
record and, on the coaches store, only overwrites the selected coach's
last-maintenance date — identifiers, types, distances, statuses and all
other coaches are untouched — and the overwrite is unconditional (no
comparison with the previously stored date). -/
theorem record_maintenance_frame (st : DbState) (coach_sel : String)
    (train_no : Option String) (date_val mtype engineer notes : String)
    (hsel : coach_sel ≠ "") :
    (page_record_maintenance_save st coach_sel train_no date_val mtype engineer notes).records
        = st.records ++ [mkMaintenanceRecord coach_sel train_no date_val mtype engineer notes]
    ∧ (page_record_maintenance_save st coach_sel train_no date_val mtype engineer notes).coaches.map
        (fun c => c.coach_id) = st.coaches.map (fun c => c.coach_id)
    ∧ (page_record_maintenance_save st coach_sel train_no date_val mtype engineer notes).coaches.map
        (fun c => c.type) = st.coaches.map (fun c => c.type)
    ∧ (page_record_maintenance_save st coach_sel train_no date_val mtype engineer notes).coaches.map
        (fun c => c.km_run) = st.coaches.map (fun c => c.km_run)
    ∧ (page_record_maintenance_save st coach_sel train_no date_val mtype engineer notes).coaches.map
        (fun c => c.status) = st.coaches.map (fun c => c.status)
    ∧ (page_record_maintenance_save st coach_sel train_no date_val mtype engineer notes).coaches.map
        (fun c => c.last_maintenance)
        = st.coaches.map (fun c =>
            if c.coach_id = coach_sel then some (pyStrip date_val) else c.last_maintenance) := by
  unfold page_record_maintenance_save
  rw [if_neg hsel]
  refine ⟨rfl, ?_, ?_, ?_, ?_, ?_⟩ <;>
    · induction st.coaches with
      | nil => rfl
      | cons c t ih =>
        by_cases h : c.coach_id = coach_sel <;> simp [h, ih]

theorem record_maintenance_frame_witness :
    (page_record_maintenance_save
        ⟨[CoachRow.mk "C1" none (some "01-01-2024") (some 0) "Active"], []⟩
        "C1" none "01-01-2020" "Brakes" "eng1" "").coaches.map
        (fun c => c.last_maintenance)
      = [some "01-01-2020"] := by
  have h := record_maintenance_frame
    ⟨[CoachRow.mk "C1" none (some "01-01-2024") (some 0) "Active"], []⟩
    "C1" none "01-01-2020" "Brakes" "eng1" "" (by decide)
  rw [h.2.2.2.2.2]
  decide

/-- C9 counterexample: the add-coach form accepts the `KM Run` input
`"-5"` and stores the negative distance `-5`, so the non-negativity
invariant claimed for accepted records fails. -/
theorem addCoach_negative_km_counterexample :
    addCoachForm "C9" "AC" "" "-5" "Active"
        = some (CoachRow.mk "C9" (some "AC") none (some (-5)) "Active")
    ∧ ((-5 : Int) < 0) := by
  exact ⟨by decide, by decide⟩

/-- C9 (amended): every coach record accepted through the create and edit
forms stores as `km_run` exactly the integer Python `int()` parses from the
`KM Run` field — negative integers included — with 0 substituted when the
field is blank. -/
theorem coach_forms_store_parsed_km :
    parseKmField "" = some 0
    ∧ (∀ coach_id ctype last km_run status c,
        addCoachForm coach_id ctype last km_run status = some c →
        parseKmField km_run = c.km_run ∧ (km_run = "" → c.km_run = some 0))
    ∧ (∀ orig type_new km_new last_new status_new c,
        editCoachForm orig type_new km_new last_new status_new = some c →
        parseKmField km_new = c.km_run ∧ (km_new = "" → c.km_run = some 0)) := by
  refine ⟨rfl, ?_, ?_⟩
  · intro coach_id ctype last km_run status c hform
    unfold addCoachForm at hform
    by_cases hid : pyStrip coach_id = ""
    · rw [if_pos hid] at hform; cases hform
    · rw [if_neg hid] at hform
      cases hkm : parseKmField km_run with
      | none => rw [hkm] at hform; cases hform
      | some kmv =>
        rw [hkm] at hform
        cases hform
        refine ⟨rfl, fun hblank => ?_⟩
        subst hblank
        cases hkm
        rfl
  · intro orig type_new km_new last_new status_new c hform
    unfold editCoachForm at hform
    cases hkm : parseKmField km_new with
    | none => rw [hkm] at hform; cases hform
    | some kmv =>
      rw [hkm] at hform
      cases hform
      refine ⟨rfl, fun hblank => ?_⟩
      subst hblank
      cases hkm
      rfl

theorem coach_forms_store_parsed_km_witness :
    addCoachForm "C1" "AC" "" "" "Active"
        = some (CoachRow.mk "C1" (some "AC") none (some 0) "Active")
    ∧ parseKmField "" = some (0 : Int)
    ∧ ("" : String) = "" := by
  refine ⟨by decide, ?_, rfl⟩
  exact (coach_forms_store_parsed_km.2.1 "C1" "AC" "" "" "Active"
    (CoachRow.mk "C1" (some "AC") none (some 0) "Active") (by decide)).1

theorem specOverdue_iff_bool (now : PyDateTime) (r : CoachRow) :
    (KM_LIMIT ≤ pyOrZero r.km_run
        || daysAtLeast (daysPassedOf now r.last_maintenance) DAYS_LIMIT) = true
      ↔ specOverdue (pyOrZero r.km_run) (daysPassedOf now r.last_maintenance) := by
  simp [specOverdue, daysAtLeast_eq_true_iff, KM_LIMIT, DAYS_LIMIT]

theorem specDueSoon_iff_bool (now : PyDateTime) (r : CoachRow) :
    (KM_LIMIT - 500 ≤ pyOrZero r.km_run
        || daysAtLeast (daysPassedOf now r.last_maintenance) DAYS_SOON) = true
      ↔ specDueSoon (pyOrZero r.km_run) (daysPassedOf now r.last_maintenance) := by
  have h : KM_LIMIT - 500 = (4500 : Int) := by norm_num [KM_LIMIT]
  rw [h]
  simp [specDueSoon, daysAtLeast_eq_true_iff, DAYS_SOON]

theorem due_status_overdue_iff (now : PyDateTime) (r : CoachRow) :
    coach_due_status now r = "Overdue"
      ↔ specOverdue (pyOrZero r.km_run) (daysPassedOf now r.last_maintenance) := by
  unfold coach_due_status
  by_cases h1 : (KM_LIMIT ≤ pyOrZero r.km_run
      || daysAtLeast (daysPassedOf now r.last_maintenance) DAYS_LIMIT) = true
  · simp only [h1, if_true]
    simp [specOverdue_iff_bool now r |>.mp h1]
  · rw [if_neg (by simpa using h1)]
    rw [← specOverdue_iff_bool now r]
    constructor
    · intro hcontra
      by_cases h2 : (KM_LIMIT - 500 ≤ pyOrZero r.km_run
          || daysAtLeast (daysPassedOf now r.last_maintenance) DAYS_SOON) = true
      · rw [if_pos h2] at hcontra; exact absurd hcontra (by decide)
      · rw [if_neg (by simpa using h2)] at hcontra; exact absurd hcontra (by decide)
    · intro hb; exact absurd hb h1

/-- C1: the evaluator classifies exactly per the spec's three-tier rule with
inclusive thresholds (`km ≥ 5000` / `days ≥ 180` Overdue, else `km ≥ 4500` /
`days ≥ 150` Due Soon, else OK, distance NULL read as 0), and at `km = 0`
the boundary instants behave inclusively: exactly 180 elapsed days is
Overdue, 179 days is Due Soon. -/
theorem coach_due_status_spec :
    (∀ (now : PyDateTime) (r : CoachRow),
        (coach_due_status now r = "Overdue"
          ↔ specOverdue (pyOrZero r.km_run) (daysPassedOf now r.last_maintenance))
      ∧ (coach_due_status now r = "Due Soon"
          ↔ ¬ specOverdue (pyOrZero r.km_run) (daysPassedOf now r.last_maintenance)
            ∧ specDueSoon (pyOrZero r.km_run) (daysPassedOf now r.last_maintenance))
      ∧ (coach_due_status now r = "OK"
          ↔ ¬ specOverdue (pyOrZero r.km_run) (daysPassedOf now r.last_maintenance)
            ∧ ¬ specDueSoon (pyOrZero r.km_run) (daysPassedOf now r.last_maintenance)))
    ∧ coach_due_status ⟨⟨2024, 6, 29⟩, 0⟩
        (CoachRow.mk "C1" none (some "01-01-2024") (some 0) "Active") = "Overdue"
    ∧ coach_due_status ⟨⟨2024, 6, 28⟩, 0⟩
        (CoachRow.mk "C1" none (some "01-01-2024") (some 0) "Active") = "Due Soon" := by
  refine ⟨fun now r => ⟨due_status_overdue_iff now r, ?_, ?_⟩, by decide, by decide⟩
  all_goals
    have ho := specOverdue_iff_bool now r
    have hs := specDueSoon_iff_bool now r
    unfold coach_due_status
    by_cases h1 : (KM_LIMIT ≤ pyOrZero r.km_run
        || daysAtLeast (daysPassedOf now r.last_maintenance) DAYS_LIMIT) = true
  · rw [if_pos h1]
    constructor
    · intro he; exact absurd he (by decide)
    · rintro ⟨hno, _⟩; exact absurd (ho.mp h1) hno
  · rw [if_neg h1]
    by_cases h2 : (KM_LIMIT - 500 ≤ pyOrZero r.km_run
        || daysAtLeast (daysPassedOf now r.last_maintenance) DAYS_SOON) = true
    · rw [if_pos h2]
      constructor
      · intro _; exact ⟨fun hov => h1 (ho.mpr hov), hs.mp h2⟩
      · intro _; rfl
    · rw [if_neg h2]
      constructor
      · intro he; exact absurd he (by decide)
      · rintro ⟨_, hds⟩; exact absurd (hs.mpr hds) h2
  · rw [if_pos h1]
    constructor
    · intro he; exact absurd he (by decide)
    · rintro ⟨hno, _⟩; exact absurd (ho.mp h1) hno
  · rw [if_neg h1]
    by_cases h2 : (KM_LIMIT - 500 ≤ pyOrZero r.km_run
        || daysAtLeast (daysPassedOf now r.last_maintenance) DAYS_SOON) = true
    · rw [if_pos h2]
      constructor
      · intro he; exact absurd he (by decide)
      · rintro ⟨_, hno⟩; exact absurd (hs.mp h2) hno
    · rw [if_neg h2]
      constructor
      · intro _; exact ⟨fun hov => h1 (ho.mpr hov), fun hds => h2 (hs.mpr hds)⟩
      · intro _; rfl

/-- Modelled from the spec's wording, for comparison with the source
definition: the parsing contract as an explicit ordered chain — try
day-month-4digit-year, then day-month-2digit-year, then ISO year-month-day,
then dotted day-month-year, taking the first success; then the generic ISO
fallback; empty input and total failure give an absent value. -/
def parseDateSpecChain (s : String) : Option PyDateTime :=
  if s = "" then none
  else
    (strptime .dmY4 s).orElse fun _ =>
      (strptime .dmy2 s).orElse fun _ =>
        (strptime .Ymd s).orElse fun _ =>
          (strptime .dmY4dot s).orElse fun _ =>
            fromisoformatOpt s

/-- C4: date parsing is total (an `Option`, never an exception) and equals
the spec's ordered-trial chain: the four formats in order, first success
wins, then the ISO fallback, with empty and malformed input degrading to an
absent value; the spec's own examples parse via the stated formats. -/
theorem parse_date_safely_spec :
    (∀ s : String, parse_date_safely s = parseDateSpecChain s)
    ∧ parse_date_safely "" = none
    ∧ parse_date_safely "not-a-date" = none
    ∧ parse_date_safely "15-03-2024" = some ⟨⟨2024, 3, 15⟩, 0⟩
    ∧ strptime .dmY4 "15-03-2024" = some ⟨⟨2024, 3, 15⟩, 0⟩
    ∧ parse_date_safely "2024-03-15" = some ⟨⟨2024, 3, 15⟩, 0⟩
    ∧ strptime .Ymd "2024-03-15" = some ⟨⟨2024, 3, 15⟩, 0⟩
    ∧ parse_date_safely "15-03-24" = some ⟨⟨2024, 3, 15⟩, 0⟩
    ∧ parse_date_safely "15.03.2024" = some ⟨⟨2024, 3, 15⟩, 0⟩
    ∧ parse_date_safely "2024-03-15T10:30:00" = some ⟨⟨2024, 3, 15⟩, 37800⟩ := by
  refine ⟨?_, by decide, by decide, by decide, by decide, by decide, by decide,
    by decide, by decide, by decide⟩
  intro s
  unfold parse_date_safely parseDateSpecChain
  by_cases hs : s = ""
  · rw [if_pos hs, if_pos hs]
  · rw [if_neg hs, if_neg hs]
    simp only [pyFormats, List.findSome?]
    cases h1 : strptime .dmY4 s <;>
      cases h2 : strptime .dmy2 s <;>
        cases h3 : strptime .Ymd s <;>
          cases h4 : strptime .dmY4dot s <;>
            simp [Option.orElse]

theorem charListLe_total : ∀ as bs : List Char, charListLe as bs = true ∨ charListLe bs as = true := by
  intro as
  induction as with
  | nil => intro bs; left; rfl
  | cons a at' ih =>
    intro bs
    cases bs with
    | nil => right; rfl
    | cons b bt =>
      by_cases h1 : a.toNat < b.toNat
      · left; simp [charListLe, h1]
      · by_cases h2 : b.toNat < a.toNat
        · right; simp [charListLe, h2]
        · rcases ih bt with h | h
          · left; simp [charListLe, h1, h2, h]
          · right; simp [charListLe, h1, h2, h]

theorem charListLe_trans : ∀ as bs cs : List Char,
    charListLe as bs = true → charListLe bs cs = true → charListLe as cs = true := by
  intro as
  induction as with
  | nil => intro bs cs _ _; rfl
  | cons a at' ih =>
    intro bs cs hab hbc
    cases bs with
    | nil => exact absurd hab (by simp [charListLe])
    | cons b bt =>
      cases cs with
      | nil => exact absurd hbc (by simp [charListLe])
      | cons c ct =>
        simp only [charListLe] at hab hbc ⊢
        by_cases h1 : a.toNat < b.toNat
        · rw [if_pos h1] at hab
          by_cases h2 : b.toNat < c.toNat
          · rw [if_pos (show a.toNat < c.toNat by omega)]
          · by_cases h4 : c.toNat < b.toNat
            · rw [if_neg h2, if_pos h4] at hbc; exact Bool.noConfusion hbc
            · rw [if_pos (show a.toNat < c.toNat by omega)]
        · rw [if_neg h1] at hab
          by_cases h3 : b.toNat < a.toNat
          · rw [if_pos h3] at hab; exact Bool.noConfusion hab
          · rw [if_neg h3] at hab
            by_cases h2 : b.toNat < c.toNat
            · rw [if_pos (show a.toNat < c.toNat by omega)]
            · by_cases h4 : c.toNat < b.toNat
              · rw [if_neg h2, if_pos h4] at hbc; exact Bool.noConfusion hbc
              · rw [if_neg h2, if_neg h4] at hbc
                rw [if_neg (show ¬ a.toNat < c.toNat by omega),
                  if_neg (show ¬ c.toNat < a.toNat by omega)]
                exact ih bt ct hab hbc

instance : IsTotal CoachRow coachRowLe :=
  ⟨fun a b => charListLe_total a.coach_id.data b.coach_id.data⟩

instance : IsTrans CoachRow coachRowLe :=
  ⟨fun _ _ _ hab hbc => charListLe_trans _ _ _ hab hbc⟩

/-- The Boolean overdue test recomputed inside the alert-scan loop. -/
def overdueB (now : PyDateTime) (r : CoachRow) : Bool :=
  KM_LIMIT ≤ pyOrZero r.km_run
    || daysAtLeast (daysPassedOf now r.last_maintenance) DAYS_LIMIT

theorem alertOfRow_eq (now : PyDateTime) (r : CoachRow) :
    alertOfRow now r = if overdueB now r then some (mkAlertEntry now r) else none := rfl

theorem filterMap_guard_eq {α β : Type} (c : α → Bool) (g : α → β) :
    ∀ l : List α,
      (l.filterMap fun a => if c a then some (g a) else none) = (l.filter c).map g := by
  intro l
  induction l with
  | nil => rfl
  | cons a t ih =>
    by_cases h : c a = true <;>
      simp [List.filterMap_cons, List.filter_cons, h, ih]

theorem get_due_maintenance_eq (now : PyDateTime) (db : List CoachRow) :
    get_due_maintenance now db
      = ((selectNotRemovedSorted db).filter (overdueB now)).map (mkAlertEntry now) := by
  unfold get_due_maintenance
  have h : alertOfRow now = fun r => if overdueB now r then some (mkAlertEntry now r) else none := by
    funext r; exact alertOfRow_eq now r
  rw [h, filterMap_guard_eq]

theorem overdueB_iff_spec (now : PyDateTime) (r : CoachRow) :
    overdueB now r = true
      ↔ specOverdue (pyOrZero r.km_run) (daysPassedOf now r.last_maintenance) := by
  exact specOverdue_iff_bool now r

theorem mem_selectNotRemovedSorted (db : List CoachRow) (r : CoachRow) :
    r ∈ selectNotRemovedSorted db ↔ r ∈ db ∧ r.status ≠ "Removed" := by
  unfold selectNotRemovedSorted
  rw [List.mem_insertionSort, List.mem_filter]
  simp [bne_iff_ne]

theorem mem_get_due_maintenance (now : PyDateTime) (db : List CoachRow) (a : AlertEntry) :
    a ∈ get_due_maintenance now db
      ↔ ∃ r, r ∈ db ∧ r.status ≠ "Removed" ∧ overdueB now r = true ∧ a = mkAlertEntry now r := by
  rw [get_due_maintenance_eq, List.mem_map]
  constructor
  · rintro ⟨r, hr, hmk⟩
    rw [List.mem_filter] at hr
    obtain ⟨hmem, hov⟩ := hr
    rw [mem_selectNotRemovedSorted] at hmem
    exact ⟨r, hmem.1, hmem.2, hov, hmk.symm⟩
  · rintro ⟨r, hdb, hst, hov, ha⟩
    refine ⟨r, ?_, ha.symm⟩
    rw [List.mem_filter, mem_selectNotRemovedSorted]
    exact ⟨⟨hdb, hst⟩, hov⟩

theorem get_due_maintenance_pairwise (now : PyDateTime) (db : List CoachRow) :
    (get_due_maintenance now db).Pairwise
      (fun a b => charListLe a.coach_id.data b.coach_id.data = true) := by
  rw [get_due_maintenance_eq]
  rw [List.pairwise_map]
  have hsorted : (selectNotRemovedSorted db).Pairwise coachRowLe :=
    List.sorted_insertionSort coachRowLe _
  exact (hsorted.sublist (List.filter_sublist _)).imp (fun h => h)

/-- C2: the fleet alert list contains exactly the coaches whose status is
not the exact string `"Removed"` and that meet the Overdue condition
(`km ≥ 5000` or known days `≥ 180`); each entry carries the identifier,
type, raw last-maintenance value, NULL-defaulted distance and nullable
days-elapsed of its row; and the list is ordered by coach identifier
ascending (byte order, the query's collation). -/
theorem get_due_maintenance_spec :
    ∀ (now : PyDateTime) (db : List CoachRow),
      (∀ a : AlertEntry,
        a ∈ get_due_maintenance now db
          ↔ ∃ r, r ∈ db ∧ r.status ≠ "Removed"
              ∧ specOverdue (pyOrZero r.km_run) (daysPassedOf now r.last_maintenance)
              ∧ a = mkAlertEntry now r)
      ∧ (get_due_maintenance now db).Pairwise
          (fun a b => charListLe a.coach_id.data b.coach_id.data = true)
      ∧ ∀ r : CoachRow,
          (mkAlertEntry now r).coach_id = r.coach_id
          ∧ (mkAlertEntry now r).type = r.type
          ∧ (mkAlertEntry now r).last_maintenance = r.last_maintenance
          ∧ (mkAlertEntry now r).km_run = pyOrZero r.km_run
          ∧ (mkAlertEntry now r).days_passed = daysPassedOf now r.last_maintenance := by
  intro now db
  refine ⟨?_, get_due_maintenance_pairwise now db, fun r => ⟨rfl, rfl, rfl, rfl, rfl⟩⟩
  intro a
  rw [mem_get_due_maintenance]
  constructor
  · rintro ⟨r, h1, h2, h3, h4⟩
    exact ⟨r, h1, h2, (overdueB_iff_spec now r).mp h3, h4⟩
  · rintro ⟨r, h1, h2, h3, h4⟩
    exact ⟨r, h1, h2, (overdueB_iff_spec now r).mpr h3, h4⟩

/-- C3: the alert scan's inlined recomputation agrees with the per-coach
evaluator: a non-`Removed` coach of the table (identifiers unique, as the
primary key guarantees) is in the alert list exactly when
`coach_due_status` classifies it `"Overdue"` at the same instant. -/
theorem alert_iff_overdue_status :
    ∀ (now : PyDateTime) (db : List CoachRow) (r : CoachRow),
      r ∈ db → r.status ≠ "Removed" → (db.map (fun c => c.coach_id)).Nodup →
      (mkAlertEntry now r ∈ get_due_maintenance now db
        ↔ coach_due_status now r = "Overdue") := by
  intro now db r hdb hst hnodup
  rw [mem_get_due_maintenance, due_status_overdue_iff]
  constructor
  · rintro ⟨r', h1, _, h3, h4⟩
    have hid : r'.coach_id = r.coach_id := (congrArg AlertEntry.coach_id h4).symm
    have heq : r' = r := List.inj_on_of_nodup_map hnodup h1 hdb hid
    rw [heq] at h3
    exact (overdueB_iff_spec now r).mp h3
  · intro hov
    exact ⟨r, hdb, hst, (overdueB_iff_spec now r).mpr hov, rfl⟩

theorem alert_iff_overdue_status_witness :
    (CoachRow.mk "C1" none none (some 6000) "Active")
        ∈ [CoachRow.mk "C1" none none (some 6000) "Active"]
    ∧ (CoachRow.mk "C1" none none (some 6000) "Active").status ≠ "Removed"
    ∧ ([CoachRow.mk "C1" none none (some 6000) "Active"].map (fun c => c.coach_id)).Nodup
    ∧ (mkAlertEntry ⟨⟨2024, 1, 1⟩, 0⟩ (CoachRow.mk "C1" none none (some 6000) "Active")
          ∈ get_due_maintenance ⟨⟨2024, 1, 1⟩, 0⟩
            [CoachRow.mk "C1" none none (some 6000) "Active"]
        ↔ coach_due_status ⟨⟨2024, 1, 1⟩, 0⟩
            (CoachRow.mk "C1" none none (some 6000) "Active") = "Overdue") :=
  ⟨by decide, by decide, by decide,
    alert_iff_overdue_status ⟨⟨2024, 1, 1⟩, 0⟩ _ _ (by decide) (by decide) (by decide)⟩

/-- Canonical `dd-mm-yyyy` shape: exactly ten characters, zero-padded
two-digit day and month and four-digit year separated by dashes. -/
def isCanonicalDMYChars : List Char → Bool
  | [d1, d2, s1, m1, m2, s2, y1, y2, y3, y4] =>
    isAsciiDigit d1 && isAsciiDigit d2 && (s1 = '-') && isAsciiDigit m1
      && isAsciiDigit m2 && (s2 = '-') && isAsciiDigit y1 && isAsciiDigit y2
      && isAsciiDigit y3 && isAsciiDigit y4
  | _ => false

/-- Canonical `dd-mm-yyyy` shape of a string. -/
def isCanonicalDMY (s : String) : Bool := isCanonicalDMYChars s.data

theorem digitChar_isDigit (n : Nat) (h : n < 10) : isAsciiDigit (digitChar n) = true := by
  interval_cases n <;> decide

theorem strftimeDMY_data (d : PyDate) :
    (strftimeDMY d).data
      = [digitChar (d.day / 10 % 10), digitChar (d.day % 10), '-',
        digitChar (d.month / 10 % 10), digitChar (d.month % 10), '-',
        digitChar (d.year / 1000 % 10), digitChar (d.year / 100 % 10),
        digitChar (d.year / 10 % 10), digitChar (d.year % 10)] := rfl

theorem strftimeDMY_canonical (d : PyDate) : isCanonicalDMY (strftimeDMY d) = true := by
  have hd1 := digitChar_isDigit (d.day / 10 % 10) (Nat.mod_lt _ (by decide))
  have hd2 := digitChar_isDigit (d.day % 10) (Nat.mod_lt _ (by decide))
  have hm1 := digitChar_isDigit (d.month / 10 % 10) (Nat.mod_lt _ (by decide))
  have hm2 := digitChar_isDigit (d.month % 10) (Nat.mod_lt _ (by decide))
  have hy1 := digitChar_isDigit (d.year / 1000 % 10) (Nat.mod_lt _ (by decide))
  have hy2 := digitChar_isDigit (d.year / 100 % 10) (Nat.mod_lt _ (by decide))
  have hy3 := digitChar_isDigit (d.year / 10 % 10) (Nat.mod_lt _ (by decide))
  have hy4 := digitChar_isDigit (d.year % 10) (Nat.mod_lt _ (by decide))
  unfold isCanonicalDMY
  rw [strftimeDMY_data]
  simp [isCanonicalDMYChars, hd1, hd2, hm1, hm2, hy1, hy2, hy3, hy4]

theorem strptime_empty (fmt : PyFormat) : strptime fmt "" = none := by
  cases fmt <;> rfl

theorem findSome?_isSome_of_mem {α β : Type} {f : α → Option β} {l : List α} {a : α} {b : β}
    (ha : a ∈ l) (hb : f a = some b) : ∃ c, l.findSome? f = some c := by
  induction l with
  | nil => cases ha
  | cons x xs ih =>
    cases hx : f x with
    | some y => exact ⟨y, by simp [List.findSome?_cons, hx]⟩
    | none =>
      rcases List.mem_cons.mp ha with h | h
      · subst h; rw [hx] at hb; cases hb
      · obtain ⟨c, hc⟩ := ih h
        exact ⟨c, by simp [List.findSome?_cons, hx, hc]⟩

/-- C8: any string accepted by one of the four input formats is displayed
as the canonical zero-padded `dd-mm-yyyy` rendering of the parsed date —
never echoed raw — regardless of which input format matched. -/
theorem roundtrip_display_canonical :
    ∀ (s : String) (fmt : PyFormat) (dt : PyDateTime),
      fmt ∈ pyFormats → strptime fmt s = some dt →
      ∃ p : PyDateTime,
        parse_date_safely s = some p
        ∧ format_date_for_display (some s) = strftimeDMY p.date
        ∧ isCanonicalDMY (strftimeDMY p.date) = true := by
  intro s fmt dt hmem hparse
  have hs : ¬ s = "" := by
    intro h
    rw [h, strptime_empty] at hparse
    cases hparse
  obtain ⟨p, hp⟩ : ∃ p, parse_date_safely s = some p := by
    obtain ⟨c, hc⟩ := findSome?_isSome_of_mem (f := fun g => strptime g s) hmem hparse
    refine ⟨c, ?_⟩
    unfold parse_date_safely
    rw [if_neg hs, hc]
  refine ⟨p, hp, ?_, strftimeDMY_canonical p.date⟩
  have hfmt : format_date_for_display (some s)
      = if s = "" then ""
        else
          match parse_date_safely s with
          | some p0 => strftimeDMY p0.date
          | none => s := rfl
  rw [hfmt, if_neg hs, hp]

theorem roundtrip_display_canonical_witness :
    (PyFormat.Ymd ∈ pyFormats)
    ∧ strptime .Ymd "2024-03-15" = some ⟨⟨2024, 3, 15⟩, 0⟩
    ∧ ∃ p : PyDateTime,
        parse_date_safely "2024-03-15" = some p
        ∧ format_date_for_display (some "2024-03-15") = strftimeDMY p.date
        ∧ isCanonicalDMY (strftimeDMY p.date) = true :=
  ⟨by decide, by decide,
    roundtrip_display_canonical "2024-03-15" .Ymd ⟨⟨2024, 3, 15⟩, 0⟩ (by decide) (by decide)⟩
